import Mathlib

/-!
Verification of the configuration / orchestration core of the
wayland-digimon overlay process, shallowly embedded from `src/config.c`,
`src/core/main.c` and `src/utils/error.c`.

Conventions of the embedding:
* C `int` fields become `Int` (the claims never exercise 32-bit overflow).
* C strings become `List Char`; the text of a config file becomes
  `List (List Char)`: the list of its lines with the trailing newline
  already stripped, exactly what the `fgets` + newline-strip prologue of
  `parse_config_file` produces for files whose lines fit the 512-byte
  buffer.
* The static globals `config_keyboard_devices` / `config_num_devices` of
  `config.c` are threaded explicitly as the `gdevs` component of
  `ParseState`; they persist across `load_config` calls exactly as the C
  statics do.
* Heap allocation (`realloc` / `BONGOCAT_MALLOC` on the device list) is
  modelled by an `alloc` oracle flag: `true` means every allocation
  succeeds, `false` means allocations fail, in which case the code records
  `BONGOCAT_ERROR_MEMORY` and skips the append, as the source does (the
  source additionally loses the old array pointer on a failed `realloc`;
  no claim depends on that memory-level detail).
* Logging side effects become a `List LogEntry` result, one constructor
  per distinct log call site that the claims can observe; `bongocat_log_debug`
  calls (pure tracing, gated on a global) are not modelled.
-/

/-- Error codes of `bongocat_error_t` (`src/utils/error.c`). -/
inductive BongocatError where
  | SUCCESS
  | ERROR_MEMORY
  | ERROR_FILE_IO
  | ERROR_WAYLAND
  | ERROR_CONFIG
  | ERROR_INPUT
  | ERROR_ANIMATION
  | ERROR_THREAD
  | ERROR_INVALID_PARAM
deriving DecidableEq, Repr

/-- C enum `overlay_position_t`: `POSITION_TOP`. -/
def POSITION_TOP : Int := 0

/-- C enum `overlay_position_t`: `POSITION_BOTTOM`. -/
def POSITION_BOTTOM : Int := 1

/-- Compile-time constants of `embedded_assets.h`, which is not among the
sources; the code under `src/` only uses them. They are kept abstract as a
parameter of the embedding. -/
structure AssetConsts where
  TOTAL_ANIMATIONS : Int
  BONGOCAT_ANIM_INDEX : Int
  DM20_AGUMON_ANIM_INDEX : Int
  BONGOCAT_NUM_FRAMES : Int
  MAX_NUM_FRAMES : Int
  DEFAULT_SCREEN_WIDTH : Int
  DEFAULT_BAR_HEIGHT : Int
deriving DecidableEq, Repr

/-- A concrete instantiation of the asset constants used by the closed
witness theorems (two animations, bongocat at index 0 with 4 frames,
agumon at index 1, global maximum of 8 frames). -/
def sampleAssets : AssetConsts :=
  { TOTAL_ANIMATIONS := 2
    BONGOCAT_ANIM_INDEX := 0
    DM20_AGUMON_ANIM_INDEX := 1
    BONGOCAT_NUM_FRAMES := 4
    MAX_NUM_FRAMES := 8
    DEFAULT_SCREEN_WIDTH := 1920
    DEFAULT_BAR_HEIGHT := 40 }

/-- `config_t` (`config.h`, in `src/unnamed/part_000`). `keyboard_devices`
(a `char **` in C, aliasing the static device array) is modelled by the
list of device path strings it points to. -/
structure Config where
  screen_width : Int
  bar_height : Int
  keyboard_devices : List (List Char)
  num_keyboard_devices : Int
  cat_x_offset : Int
  cat_y_offset : Int
  cat_height : Int
  overlay_height : Int
  idle_frame : Int
  keypress_duration : Int
  test_animation_duration : Int
  test_animation_interval : Int
  fps : Int
  overlay_opacity : Int
  enable_debug : Int
  layer : Int
  overlay_position : Int
  animation_index : Int
  invert_color : Int
  crop_sprite : Int
  padding_x : Int
  padding_y : Int

/-- One entry of the process log; one constructor per log call site of
`config.c` and `config_reload_callback` that the embedding models, in the
order the source emits them. -/
inductive LogEntry where
  | warnClampCatHeight
  | warnClampOverlayHeight
  | warnClampFps
  | warnClampKeypressDuration
  | warnClampTestAnimationDuration
  | warnClampTestAnimationInterval
  | warnClampOverlayOpacity
  | warnResetAnimationIndex
  | warnResetIdleFrame
  | warnInvalidOverlayPositionValue
  | warnCatOffscreen
  | infoConfigNotFound
  | warnInvalidOverlayPosition (value : List Char)
  | warnInvalidAnimationName (value : List Char)
  | warnUnknownKey (key : List Char) (line : Nat)
  | warnInvalidLine (line : Nat)
  | errorAllocDevices
  | infoLoadedConfig
  | infoReloading
  | errorReloadFailed
  | infoKeepingCurrent
  | infoDevicesChanged
  | infoReloaded
deriving DecidableEq, Repr

/-- Whether a log entry is a warning (a `bongocat_log_warning` call). -/
def LogEntry.isWarning : LogEntry → Bool
  | .warnClampCatHeight => true
  | .warnClampOverlayHeight => true
  | .warnClampFps => true
  | .warnClampKeypressDuration => true
  | .warnClampTestAnimationDuration => true
  | .warnClampTestAnimationInterval => true
  | .warnClampOverlayOpacity => true
  | .warnResetAnimationIndex => true
  | .warnResetIdleFrame => true
  | .warnInvalidOverlayPositionValue => true
  | .warnCatOffscreen => true
  | .warnInvalidOverlayPosition _ => true
  | .warnInvalidAnimationName _ => true
  | .warnUnknownKey _ _ => true
  | .warnInvalidLine _ => true
  | _ => false

/-- Number of warnings in a log. -/
def countWarnings (logs : List LogEntry) : Nat :=
  (logs.filter LogEntry.isWarning).length

/-- The body of `validate_config` (config.c:22-110) on a non-NULL config:
the sanitized config together with the warnings it logs, in source order.
The C function updates the fields one after another; no check reads a
field that another check writes, except the idle-frame check, which reads
the animation index after the animation-index check has finalized it —
rendered here by the `anim` binding. `x ? 1 : 0` on the flag fields is C
truthiness. -/
def validate_config_run (K : AssetConsts) (c : Config) : Config × List LogEntry :=
  let anim := if c.animation_index < 0 ∨ K.TOTAL_ANIMATIONS ≤ c.animation_index then 0
              else c.animation_index
  ({ c with
      cat_height :=
        if c.cat_height < 10 ∨ 200 < c.cat_height then
          (if c.cat_height < 10 then 10 else 200)
        else c.cat_height
      overlay_height :=
        if c.overlay_height < 20 ∨ 300 < c.overlay_height then
          (if c.overlay_height < 20 then 20 else 300)
        else c.overlay_height
      fps :=
        if c.fps < 1 ∨ 120 < c.fps then (if c.fps < 1 then 1 else 120) else c.fps
      keypress_duration :=
        if c.keypress_duration < 10 ∨ 5000 < c.keypress_duration then
          (if c.keypress_duration < 10 then 10 else 5000)
        else c.keypress_duration
      test_animation_duration :=
        if c.test_animation_duration < 10 ∨ 5000 < c.test_animation_duration then
          (if c.test_animation_duration < 10 then 10 else 5000)
        else c.test_animation_duration
      test_animation_interval :=
        if c.test_animation_interval < 0 ∨ 3600 < c.test_animation_interval then
          (if c.test_animation_interval < 0 then 0 else 3600)
        else c.test_animation_interval
      overlay_opacity :=
        if c.overlay_opacity < 0 ∨ 255 < c.overlay_opacity then
          (if c.overlay_opacity < 0 then 0 else 255)
        else c.overlay_opacity
      animation_index := anim
      idle_frame :=
        if anim = K.BONGOCAT_ANIM_INDEX then
          (if c.idle_frame < 0 ∨ K.BONGOCAT_NUM_FRAMES ≤ c.idle_frame then 0
           else c.idle_frame)
        else
          (if c.idle_frame < 0 ∨ K.MAX_NUM_FRAMES ≤ c.idle_frame then 0
           else c.idle_frame)
      enable_debug := if c.enable_debug ≠ 0 then 1 else 0
      invert_color := if c.invert_color ≠ 0 then 1 else 0
      overlay_position :=
        if c.overlay_position ≠ POSITION_TOP ∧ c.overlay_position ≠ POSITION_BOTTOM then
          POSITION_TOP
        else c.overlay_position },
   (if c.cat_height < 10 ∨ 200 < c.cat_height then [LogEntry.warnClampCatHeight] else []) ++
   (if c.overlay_height < 20 ∨ 300 < c.overlay_height then [LogEntry.warnClampOverlayHeight] else []) ++
   (if c.fps < 1 ∨ 120 < c.fps then [LogEntry.warnClampFps] else []) ++
   (if c.keypress_duration < 10 ∨ 5000 < c.keypress_duration then [LogEntry.warnClampKeypressDuration] else []) ++
   (if c.test_animation_duration < 10 ∨ 5000 < c.test_animation_duration then [LogEntry.warnClampTestAnimationDuration] else []) ++
   (if c.test_animation_interval < 0 ∨ 3600 < c.test_animation_interval then [LogEntry.warnClampTestAnimationInterval] else []) ++
   (if c.overlay_opacity < 0 ∨ 255 < c.overlay_opacity then [LogEntry.warnClampOverlayOpacity] else []) ++
   (if c.animation_index < 0 ∨ K.TOTAL_ANIMATIONS ≤ c.animation_index then [LogEntry.warnResetAnimationIndex] else []) ++
   (if anim = K.BONGOCAT_ANIM_INDEX then
      (if c.idle_frame < 0 ∨ K.BONGOCAT_NUM_FRAMES ≤ c.idle_frame then [LogEntry.warnResetIdleFrame] else [])
    else
      (if c.idle_frame < 0 ∨ K.MAX_NUM_FRAMES ≤ c.idle_frame then [LogEntry.warnResetIdleFrame] else [])) ++
   (if c.overlay_position ≠ POSITION_TOP ∧ c.overlay_position ≠ POSITION_BOTTOM then [LogEntry.warnInvalidOverlayPositionValue] else []) ++
   (if c.screen_width < |c.cat_x_offset| then [LogEntry.warnCatOffscreen] else []))

/-- `validate_config` (config.c:22-110): `BONGOCAT_CHECK_NULL` rejects a
NULL config with `BONGOCAT_ERROR_INVALID_PARAM`; otherwise the function
sanitizes in place and returns `BONGOCAT_SUCCESS`. -/
def validate_config (K : AssetConsts) (oc : Option Config) :
    Option (Config × List LogEntry) × BongocatError :=
  match oc with
  | none => (none, .ERROR_INVALID_PARAM)
  | some c => (some (validate_config_run K c), .SUCCESS)

/-- C `isspace` in the default locale: space, `\t`, `\n`, `\v`, `\f`, `\r`. -/
def isWs (c : Char) : Bool :=
  c = ' ' ∨ c = '\t' ∨ c = '\n' ∨ c = '\r' ∨ c.toNat = 11 ∨ c.toNat = 12

/-- The `sscanf(line, " %255[^=] = %255s", key, value)` step of
`parse_config_file` (config.c:143): skip leading whitespace, read at most
255 characters other than `=` (at least one), skip whitespace, match the
literal `=`, skip whitespace, read at most 255 non-whitespace characters
(at least one). `none` models a return value other than 2. -/
def scanKeyValue (line : List Char) : Option (List Char × List Char) :=
  let s1 := line.dropWhile isWs
  let key := (s1.takeWhile (fun c => c ≠ '=')).take 255
  if key.isEmpty then none
  else
    match (s1.drop key.length).dropWhile isWs with
    | '=' :: rest =>
        let v := ((rest.dropWhile isWs).takeWhile (fun c => ¬ isWs c)).take 255
        if v.isEmpty then none else some (key, v)
    | _ => none

/-- The manual key trimming of `parse_config_file` (config.c:145-151):
strip leading and trailing spaces and tabs, keeping at least the first
character. Since `sscanf` already skipped leading whitespace the leading
strip is a no-op and the result stays non-empty. -/
def trimKey (k : List Char) : List Char :=
  let k1 := k.dropWhile (fun c => c = ' ' ∨ c = '\t')
  (k1.reverse.dropWhile (fun c => c = ' ' ∨ c = '\t')).reverse

/-- The `acc`umulating digit scan of `strtol`: consume the maximal leading
run of decimal digits. -/
def digitsVal (cs : List Char) (acc : Int) : Int :=
  match cs with
  | [] => acc
  | c :: rest =>
      if '0' ≤ c ∧ c ≤ '9' then digitsVal rest (acc * 10 + ((c.toNat : Int) - 48))
      else acc

/-- `(int)strtol(value, NULL, 10)` on a whitespace-free token: optional
sign, then the maximal run of decimal digits; no digits yields 0. The
`LONG_MAX` clamp and the int truncation are not modelled (the claims stay
far below them). -/
def strtol10 (cs : List Char) : Int :=
  match cs with
  | '-' :: rest => - digitsVal rest 0
  | '+' :: rest => digitsVal rest 0
  | _ => digitsVal cs 0

/-- The state `parse_config_file` threads through its line loop: the
static device globals, the config being filled, the log so far, and the
`result` variable. -/
structure ParseState where
  gdevs : List (List Char)
  cfg : Config
  logs : List LogEntry
  err : BongocatError

/-- The comment/blank test of the line loop (config.c:138):
`line[0]=='#' || line[0]=='\0' || strspn(line," \t")==strlen(line)`. -/
def lineIsSkipped (line : List Char) : Bool :=
  match line with
  | [] => true
  | c :: _ => c = '#' ∨ line.all (fun ch => ch = ' ' ∨ ch = '\t')

/-- The key-dispatch chain of `parse_config_file` (config.c:153-218), one
branch per `strcmp`, ending in the unknown-key warning. The device branch
mirrors the realloc/strncpy block: on allocation success the path is
appended to the static array and both config fields are refreshed from the
globals; on failure the error is logged and `result` becomes
`BONGOCAT_ERROR_MEMORY` while the loop continues. -/
def applyKeyValue (K : AssetConsts) (alloc : Bool) (st : ParseState) (lineNo : Nat)
    (key v : List Char) : ParseState :=
  if key = "cat_x_offset".data then
    { st with cfg := { st.cfg with cat_x_offset := strtol10 v } }
  else if key = "cat_y_offset".data then
    { st with cfg := { st.cfg with cat_y_offset := strtol10 v } }
  else if key = "cat_height".data then
    { st with cfg := { st.cfg with cat_height := strtol10 v } }
  else if key = "overlay_height".data then
    { st with cfg := { st.cfg with overlay_height := strtol10 v } }
  else if key = "idle_frame".data then
    { st with cfg := { st.cfg with idle_frame := strtol10 v } }
  else if key = "keypress_duration".data then
    { st with cfg := { st.cfg with keypress_duration := strtol10 v } }
  else if key = "test_animation_duration".data then
    { st with cfg := { st.cfg with test_animation_duration := strtol10 v } }
  else if key = "test_animation_interval".data then
    { st with cfg := { st.cfg with test_animation_interval := strtol10 v } }
  else if key = "fps".data then
    { st with cfg := { st.cfg with fps := strtol10 v } }
  else if key = "overlay_opacity".data then
    { st with cfg := { st.cfg with overlay_opacity := strtol10 v } }
  else if key = "enable_debug".data then
    { st with cfg := { st.cfg with enable_debug := strtol10 v } }
  else if key = "invert_color".data then
    { st with cfg := { st.cfg with invert_color := strtol10 v } }
  else if key = "overlay_position".data then
    if v = "top".data then
      { st with cfg := { st.cfg with overlay_position := POSITION_TOP } }
    else if v = "bottom".data then
      { st with cfg := { st.cfg with overlay_position := POSITION_BOTTOM } }
    else
      { st with cfg := { st.cfg with overlay_position := POSITION_TOP },
                logs := st.logs ++ [.warnInvalidOverlayPosition v] }
  else if key = "animation_name".data then
    if v = "bongocat".data then
      { st with cfg := { st.cfg with animation_index := K.BONGOCAT_ANIM_INDEX } }
    else if v = "agumon".data ∨ v = "dm20:agumon".data ∨ v = "dm:agumon".data then
      { st with cfg := { st.cfg with animation_index := K.DM20_AGUMON_ANIM_INDEX } }
    else
      { st with cfg := { st.cfg with animation_index := K.BONGOCAT_ANIM_INDEX },
                logs := st.logs ++ [.warnInvalidAnimationName v] }
  else if key = "keyboard_device".data ∨ key = "keyboard_devices".data then
    if alloc then
      let g := st.gdevs ++ [v]
      { st with gdevs := g,
                cfg := { st.cfg with keyboard_devices := g,
                                     num_keyboard_devices := (g.length : Int) } }
    else
      { st with logs := st.logs ++ [.errorAllocDevices], err := .ERROR_MEMORY }
  else
    { st with logs := st.logs ++ [.warnUnknownKey key lineNo] }

/-- One iteration of the `fgets` loop of `parse_config_file`
(config.c:128-222) on a line already stripped of its newline: skip
comments/blanks, scan `key = value`, dispatch on the trimmed key, or warn
about an invalid non-empty line. -/
def processLine (K : AssetConsts) (alloc : Bool) (st : ParseState) (lineNo : Nat)
    (line : List Char) : ParseState :=
  if lineIsSkipped line then st
  else
    match scanKeyValue line with
    | some (key, v) => applyKeyValue K alloc st lineNo (trimKey key) v
    | none =>
        if line.length > 0 then { st with logs := st.logs ++ [.warnInvalidLine lineNo] }
        else st

/-- The whole line loop: `lineNo` is the value of `line_number` before the
next line is read (the C increments it first, so the first line is 1). -/
def parseLines (K : AssetConsts) (alloc : Bool) (st : ParseState) (lineNo : Nat) :
    List (List Char) → ParseState
  | [] => st
  | l :: rest => parseLines K alloc (processLine K alloc st (lineNo + 1) l) (lineNo + 1) rest

/-- `parse_config_file` (config.c:112-231). `file = none` models `fopen`
failing (missing file): an informational note and `BONGOCAT_SUCCESS`,
leaving the config untouched. Otherwise the lines are processed in order
and, when `result` is still `BONGOCAT_SUCCESS`, the closing
`bongocat_log_info("Loaded configuration ...")` is emitted. -/
def parse_config_file (K : AssetConsts) (gdevs : List (List Char)) (cfg : Config)
    (alloc : Bool) (file : Option (List (List Char))) : ParseState :=
  match file with
  | none => { gdevs := gdevs, cfg := cfg, logs := [.infoConfigNotFound], err := .SUCCESS }
  | some lines =>
      let st := parseLines K alloc { gdevs := gdevs, cfg := cfg, logs := [], err := .SUCCESS } 0 lines
      if st.err = .SUCCESS then { st with logs := st.logs ++ [.infoLoadedConfig] } else st

/-- The defaults block of `load_config` (config.c:237-256); the fields the
designated initializer does not mention (`layer`, `crop_sprite`,
`padding_x`, `padding_y`) are zero-initialized by C semantics. -/
def defaultConfig (K : AssetConsts) : Config :=
  { screen_width := K.DEFAULT_SCREEN_WIDTH
    bar_height := K.DEFAULT_BAR_HEIGHT
    keyboard_devices := []
    num_keyboard_devices := 0
    cat_x_offset := 100
    cat_y_offset := 10
    cat_height := 40
    overlay_height := 50
    idle_frame := 0
    keypress_duration := 100
    test_animation_duration := 200
    test_animation_interval := 3
    fps := 60
    overlay_opacity := 150
    enable_debug := 1
    layer := 0
    overlay_position := POSITION_TOP
    animation_index := K.BONGOCAT_ANIM_INDEX
    invert_color := 0
    crop_sprite := 0
    padding_x := 0
    padding_y := 0 }

/-- `load_config` (config.c:233-308): reset the config to the defaults;
if the static device count is zero (and allocation succeeds) install the
default `/dev/input/event4` device; parse the file; on a parse error
return it; validate (never fails on a non-NULL config); finally overwrite
`bar_height` with the validated `overlay_height`. The returned
`ParseState` carries the static globals, the resulting config, the log and
the error code. -/
def load_config (K : AssetConsts) (gdevs : List (List Char)) (alloc : Bool)
    (file : Option (List (List Char))) : ParseState :=
  let c0 := defaultConfig K
  let withDefaultDev :=
    if gdevs.length = 0 ∧ alloc then
      (["/dev/input/event4".data],
       { c0 with keyboard_devices := ["/dev/input/event4".data], num_keyboard_devices := 1 })
    else (gdevs, c0)
  let st := parse_config_file K withDefaultDev.1 withDefaultDev.2 alloc file
  if st.err ≠ .SUCCESS then st
  else
    let vr := validate_config_run K st.cfg
    { st with cfg := { vr.1 with bar_height := vr.1.overlay_height },
              logs := st.logs ++ vr.2 }

/-- Calls into the running subsystems that `config_reload_callback`
(main.c:233-269) can make after a successful reload:
`wayland_update_config(&g_wayland_ctx, &g_config, &g_animation_ctx)`
(reconfiguring the renderer and, through the animation context it is
handed, the animator) and
`input_restart_monitoring(&g_input_ctx, &g_config, devices, num, debug)`. -/
inductive SubsystemAction where
  | wayland_update_config
  | input_restart_monitoring (devices : List (List Char)) (num : Int) (debug : Int)
deriving DecidableEq, Repr

/-- `config_devices_changed` (main.c:211-231): true when the device counts
differ, or when some device path of the new config is not `strcmp`-equal
to any device path of the old config. -/
def config_devices_changed (old_config new_config : Config) : Bool :=
  if old_config.num_keyboard_devices ≠ new_config.num_keyboard_devices then true
  else
    new_config.keyboard_devices.any fun d =>
      ! old_config.keyboard_devices.any fun d2 => d2 == d

/-- The spec's words, for comparison with `config_devices_changed`: an
order-insensitive set comparison by path — every path of each list occurs
in the other. -/
def spec_device_set_equal (a b : List (List Char)) : Bool :=
  (a.all fun d => b.any fun d2 => d2 == d) && (b.all fun d => a.any fun d2 => d2 == d)

/-- The success path of `config_reload_callback` (main.c:246-268), as a
function of the old live config and the successfully loaded candidate:
the candidate becomes the live config, `wayland_update_config` runs
unconditionally, and `input_restart_monitoring` runs exactly when
`config_devices_changed` holds, carrying the new config's device list,
count and debug flag. -/
def config_reload_apply (live temp : Config) : Config × List SubsystemAction :=
  (temp,
   SubsystemAction.wayland_update_config ::
     (if config_devices_changed live temp then
        [SubsystemAction.input_restart_monitoring temp.keyboard_devices
           temp.num_keyboard_devices temp.enable_debug]
      else []))

/-- `config_reload_callback` (main.c:233-269): load the candidate file
into a temporary config; if `load_config` reports anything but
`BONGOCAT_SUCCESS`, log and return with the live config untouched and no
subsystem called; otherwise publish the candidate and notify the
subsystems via `config_reload_apply`. The result is (static device
globals, live config after the callback, subsystem calls made, log). -/
def config_reload_callback (K : AssetConsts) (gdevs : List (List Char)) (alloc : Bool)
    (live : Config) (file : Option (List (List Char))) :
    List (List Char) × Config × List SubsystemAction × List LogEntry :=
  let st := load_config K gdevs alloc file
  if st.err ≠ .SUCCESS then
    (st.gdevs, live, [], [.infoReloading] ++ st.logs ++ [.errorReloadFailed, .infoKeepingCurrent])
  else
    let applied := config_reload_apply live st.cfg
    (st.gdevs, applied.1, applied.2,
     [.infoReloading] ++ st.logs ++
       (if config_devices_changed live st.cfg then [.infoDevicesChanged] else []) ++ [.infoReloaded])

/-- Linux signal numbers used by `main.c`. -/
def SIGINT : Int := 2

/-- SIGTERM signal number. -/
def SIGTERM : Int := 15

/-- SIGCHLD signal number. -/
def SIGCHLD : Int := 17

/-- What `signal_handler` (main.c:161-176) does while executing in signal
context, in program order. -/
inductive HandlerEffect where
  | log_info_shutdown (sig : Int)
  | set_running_zero
  | reap_children_loop
  | log_warning_unexpected (sig : Int)
deriving DecidableEq, Repr

/-- `signal_handler` (main.c:161-176): on SIGINT/SIGTERM it logs an info
message and then clears the `running` flag; on SIGCHLD it reaps children
with a `waitpid(-1, NULL, WNOHANG)` loop; on any other signal it logs a
warning. All of this runs inside the handler itself. -/
def signal_handler (sig : Int) : List HandlerEffect :=
  if sig = SIGINT ∨ sig = SIGTERM then
    [.log_info_shutdown sig, .set_running_zero]
  else if sig = SIGCHLD then
    [.reap_children_loop]
  else
    [.log_warning_unexpected sig]

/-- Whether a handler effect is a bare write of an atomic/`sig_atomic_t`
flag (the only thing the spec's SignalBridge contract allows in signal
context). -/
def HandlerEffect.isAtomicFlagWrite : HandlerEffect → Bool
  | .set_running_zero => true
  | _ => false

/-- The cleanup steps of `system_cleanup_and_exit` (main.c:323-357), in
the order its statements appear. -/
inductive CleanupStep where
  | remove_pid_file
  | config_watcher_cleanup
  | animation_cleanup
  | wayland_cleanup
  | input_cleanup
  | config_cleanup
  | print_memory_stats
  | exit_process (code : Int)
deriving DecidableEq, Repr

/-- `system_cleanup_and_exit` (main.c:323-357): remove the PID file, stop
the config watcher, stop the animation system, clean up Wayland, clean up
input, clean up the configuration, optionally print memory statistics
(debug builds with `enable_debug` set), and finally `exit(exit_code)`.
Every step is a statement-sequence call on a void function: no step's
execution depends on the outcome of an earlier one, which the `fails`
oracle (whether each step's internals fail) makes explicit — the emitted
sequence does not consult it. -/
def system_cleanup_and_exit (fails : CleanupStep → Bool) (live : Config) (exit_code : Int) :
    List CleanupStep :=
  let _ := fails
  [CleanupStep.remove_pid_file, CleanupStep.config_watcher_cleanup,
   CleanupStep.animation_cleanup, CleanupStep.wayland_cleanup,
   CleanupStep.input_cleanup, CleanupStep.config_cleanup] ++
  (if live.enable_debug ≠ 0 then [CleanupStep.print_memory_stats] else []) ++
  [CleanupStep.exit_process exit_code]

/-- Modelled from the spec: the per-animation frame counts live in
`embedded_assets.h`, which is not among the sources. The spec states that
the idle-frame index is bounded by the frame count of the *selected*
animation, and `validate_config` bounds it by `BONGOCAT_NUM_FRAMES` for
the bongocat index and by `MAX_NUM_FRAMES` for every other index, so the
frame count of every non-bongocat animation is `MAX_NUM_FRAMES`. -/
def frameCount (K : AssetConsts) (animIndex : Int) : Int :=
  if animIndex = K.BONGOCAT_ANIM_INDEX then K.BONGOCAT_NUM_FRAMES else K.MAX_NUM_FRAMES

/-! ## Helper lemmas -/

/-- The clamp pattern of `validate_config` (pick the violated bound) equals
clamping to the nearest bound whenever the range is non-degenerate. -/
theorem clampIte_eq_max_min (lo hi x : Int) (h : lo ≤ hi) :
    (if x < lo ∨ hi < x then (if x < lo then lo else hi) else x) = max lo (min hi x) := by
  simp only [max_def, min_def]
  split_ifs <;> omega

/-- With every allocation succeeding, no branch of the key dispatch
changes the `result` variable. -/
theorem applyKeyValue_err_alloc_true (K : AssetConsts) (st : ParseState) (n : Nat)
    (k v : List Char) : (applyKeyValue K true st n k v).err = st.err := by
  dsimp only [applyKeyValue]
  simp only [apply_ite ParseState.err, reduceIte, ite_self]

/-- With every allocation succeeding, one loop iteration preserves the
`result` variable. -/
theorem processLine_err_alloc_true (K : AssetConsts) (st : ParseState) (n : Nat)
    (l : List Char) : (processLine K true st n l).err = st.err := by
  dsimp only [processLine]
  cases hs : scanKeyValue l with
  | none => simp only [hs]; split_ifs <;> rfl
  | some kv =>
      obtain ⟨k0, v0⟩ := kv
      simp only [hs]
      split_ifs
      · rfl
      · exact applyKeyValue_err_alloc_true K st n (trimKey k0) v0

/-- With every allocation succeeding, the whole line loop preserves the
`result` variable. -/
theorem parseLines_err_alloc_true (K : AssetConsts) (lines : List (List Char)) :
    ∀ (st : ParseState) (n : Nat), (parseLines K true st n lines).err = st.err := by
  induction lines with
  | nil => intro st n; rfl
  | cons l rest ih =>
      intro st n
      rw [parseLines, ih, processLine_err_alloc_true]

/-- The overlay height produced by `validate_config` lies in [20, 300]. -/
theorem validate_overlay_height_bounds (K : AssetConsts) (c : Config) :
    20 ≤ (validate_config_run K c).1.overlay_height ∧
      (validate_config_run K c).1.overlay_height ≤ 300 := by
  dsimp only [validate_config_run]
  constructor <;> (split_ifs <;> omega)

/-! ## Claim theorems -/

/-- C2: for every input configuration, `validate_config` succeeds on a
non-null snapshot and produces a compliant one: each bounded numeric field
is clamped to the nearest bound of its documented range (cat height
[10,200], overlay height [20,300], fps [1,120], the two durations
[10,5000], test-animation interval [0,3600], opacity [0,255] — so fps=500
becomes 120, interval=-5 becomes 0, opacity=999 becomes 255),
`enable_debug` and `invert_color` are coerced into {0,1}, an invalid
`overlay_position` is reset to top, and an out-of-range animation index is
reset to the default 0. -/
theorem validate_total_and_clamped (K : AssetConsts) (c : Config) :
    validate_config K (some c) = (some (validate_config_run K c), BongocatError.SUCCESS) ∧
    (validate_config_run K c).1.cat_height = max 10 (min 200 c.cat_height) ∧
    (validate_config_run K c).1.overlay_height = max 20 (min 300 c.overlay_height) ∧
    (validate_config_run K c).1.fps = max 1 (min 120 c.fps) ∧
    (validate_config_run K c).1.keypress_duration = max 10 (min 5000 c.keypress_duration) ∧
    (validate_config_run K c).1.test_animation_duration = max 10 (min 5000 c.test_animation_duration) ∧
    (validate_config_run K c).1.test_animation_interval = max 0 (min 3600 c.test_animation_interval) ∧
    (validate_config_run K c).1.overlay_opacity = max 0 (min 255 c.overlay_opacity) ∧
    ((validate_config_run K c).1.enable_debug = 0 ∨ (validate_config_run K c).1.enable_debug = 1) ∧
    ((validate_config_run K c).1.invert_color = 0 ∨ (validate_config_run K c).1.invert_color = 1) ∧
    (validate_config_run K c).1.overlay_position =
      (if c.overlay_position ≠ POSITION_TOP ∧ c.overlay_position ≠ POSITION_BOTTOM then
        POSITION_TOP else c.overlay_position) ∧
    (validate_config_run K c).1.animation_index =
      (if 0 ≤ c.animation_index ∧ c.animation_index < K.TOTAL_ANIMATIONS then
        c.animation_index else 0) := by
  refine ⟨rfl, ?_, ?_, ?_, ?_, ?_, ?_, ?_, ?_, ?_, rfl, ?_⟩ <;>
    dsimp only [validate_config_run] <;>
    first
      | exact clampIte_eq_max_min _ _ _ (by omega)
      | (split_ifs <;> omega)

/-- C4: `validate_config` is idempotent on the configuration value — for
any asset constants and any configuration, running the sanitizer on its
own output changes nothing. -/
theorem validate_config_idempotent (K : AssetConsts) (c : Config) :
    (validate_config_run K (validate_config_run K c).1).1 = (validate_config_run K c).1 := by
  dsimp only [validate_config_run, POSITION_TOP, POSITION_BOTTOM]
  congr 1 <;> first | rfl | (split_ifs <;> omega)

/-- C1: if `load_config` on the candidate file reports anything but
success, `config_reload_callback` returns with the live configuration
snapshot unchanged and without calling any subsystem reconfigure or
restart operation — the process keeps running on the previous
configuration with no partial application of the candidate. -/
theorem reload_failure_preserves_live (K : AssetConsts) (gdevs : List (List Char))
    (alloc : Bool) (live : Config) (file : Option (List (List Char)))
    (h : (load_config K gdevs alloc file).err ≠ BongocatError.SUCCESS) :
    (config_reload_callback K gdevs alloc live file).2.1 = live ∧
    (config_reload_callback K gdevs alloc live file).2.2.1 = [] := by
  dsimp only [config_reload_callback]
  rw [if_pos h]
  exact ⟨rfl, rfl⟩

/-- C1 witness: a concrete failing reload (allocation failure while a
`keyboard_device` line is parsed) leaves a concrete live configuration
untouched and calls no subsystem. -/
theorem reload_failure_preserves_live_witness :
    (load_config sampleAssets [] false
        (some ["keyboard_device=/dev/input/event3".data])).err ≠ BongocatError.SUCCESS ∧
    (config_reload_callback sampleAssets [] false (defaultConfig sampleAssets)
        (some ["keyboard_device=/dev/input/event3".data])).2.1 = defaultConfig sampleAssets ∧
    (config_reload_callback sampleAssets [] false (defaultConfig sampleAssets)
        (some ["keyboard_device=/dev/input/event3".data])).2.2.1 = [] :=
  ⟨by decide,
   (reload_failure_preserves_live sampleAssets [] false (defaultConfig sampleAssets)
      (some ["keyboard_device=/dev/input/event3".data]) (by decide)).1,
   (reload_failure_preserves_live sampleAssets [] false (defaultConfig sampleAssets)
      (some ["keyboard_device=/dev/input/event3".data]) (by decide)).2⟩

/-- C3: `validate_config` range-checks the idle-frame index against the
frame count of the animation actually selected by the finalized animation
index (`frameCount`, modelled from the spec for the non-bongocat case),
not a global bound independent of the selection; in particular, with the
agumon animation selected and `idle_frame` equal to the bongocat-only
frame count, the idle frame is kept or reset according to agumon's own
frame-count bound. -/
theorem idle_frame_bound_is_selected_animation (K : AssetConsts) (c : Config)
    (hlo : 0 ≤ K.DM20_AGUMON_ANIM_INDEX)
    (hhi : K.DM20_AGUMON_ANIM_INDEX < K.TOTAL_ANIMATIONS)
    (hne : K.DM20_AGUMON_ANIM_INDEX ≠ K.BONGOCAT_ANIM_INDEX)
    (hbf : 0 ≤ K.BONGOCAT_NUM_FRAMES)
    (hsel : c.animation_index = K.DM20_AGUMON_ANIM_INDEX) :
    (∀ c' : Config, (validate_config_run K c').1.idle_frame =
      (if 0 ≤ c'.idle_frame ∧
          c'.idle_frame < frameCount K ((validate_config_run K c').1.animation_index) then
        c'.idle_frame else 0)) ∧
    (validate_config_run K c).1.animation_index = K.DM20_AGUMON_ANIM_INDEX ∧
    (c.idle_frame = K.BONGOCAT_NUM_FRAMES →
      (validate_config_run K c).1.idle_frame =
        (if K.BONGOCAT_NUM_FRAMES < frameCount K K.DM20_AGUMON_ANIM_INDEX then
          K.BONGOCAT_NUM_FRAMES else 0)) := by
  refine ⟨fun c' => ?_, ?_, fun hidle => ?_⟩ <;>
    dsimp only [validate_config_run, frameCount] <;>
    split_ifs <;> omega

/-- C3 witness: with the sample constants (agumon at index 1 with the
global maximum 8 frames, bongocat with 4 frames), selecting agumon and
setting `idle_frame` to bongocat's frame count 4 keeps the idle frame,
because agumon's own bound — not bongocat's — governs the check. -/
theorem idle_frame_bound_is_selected_animation_witness :
    (validate_config_run sampleAssets
        { defaultConfig sampleAssets with animation_index := 1, idle_frame := 4 }).1.idle_frame =
      (if sampleAssets.BONGOCAT_NUM_FRAMES <
          frameCount sampleAssets sampleAssets.DM20_AGUMON_ANIM_INDEX then
        sampleAssets.BONGOCAT_NUM_FRAMES else 0) :=
  (idle_frame_bound_is_selected_animation sampleAssets
      { defaultConfig sampleAssets with animation_index := 1, idle_frame := 4 }
      (by decide) (by decide) (by decide) (by decide) (by decide)).2.2 (by decide)

/-- C5: evaluation of the determinism claim at a concrete input. Loading
the same well-formed one-line file `cat_height=55` twice in succession
(threading the static device globals exactly as the process does) yields
two successful loads whose snapshots differ: the first has the single
default device `/dev/input/event4`, the second has an empty device list,
because `config_num_devices` is a never-reset static and the defaults
block sets the snapshot's own device fields back to NULL/0. -/
theorem load_config_second_load_loses_devices :
    (load_config sampleAssets [] true (some ["cat_height=55".data])).err =
      BongocatError.SUCCESS ∧
    (load_config sampleAssets
        (load_config sampleAssets [] true (some ["cat_height=55".data])).gdevs true
        (some ["cat_height=55".data])).err = BongocatError.SUCCESS ∧
    (load_config sampleAssets [] true (some ["cat_height=55".data])).cfg.num_keyboard_devices = 1 ∧
    (load_config sampleAssets
        (load_config sampleAssets [] true (some ["cat_height=55".data])).gdevs true
        (some ["cat_height=55".data])).cfg.num_keyboard_devices = 0 ∧
    (load_config sampleAssets [] true (some ["cat_height=55".data])).cfg.keyboard_devices ≠
      (load_config sampleAssets
          (load_config sampleAssets [] true (some ["cat_height=55".data])).gdevs true
          (some ["cat_height=55".data])).cfg.keyboard_devices := by
  decide

/-- C6: evaluation of the signal-handler claim at its failing inputs. The
handler for SIGINT performs, inside signal context, an effect that is not
an atomic flag write (it logs the shutdown message before clearing
`running`), and the handler for SIGCHLD reaps children itself with a
`waitpid` loop instead of setting a reap trigger for the main loop. -/
theorem signal_handler_logs_and_reaps_inline :
    ((signal_handler SIGINT).all HandlerEffect.isAtomicFlagWrite = false) ∧
    HandlerEffect.log_info_shutdown SIGINT ∈ signal_handler SIGINT ∧
    HandlerEffect.log_info_shutdown SIGTERM ∈ signal_handler SIGTERM ∧
    signal_handler SIGCHLD = [HandlerEffect.reap_children_loop] ∧
    HandlerEffect.set_running_zero ∈ signal_handler SIGINT := by
  decide

/-- C7 counterexample: the claim's order is wrong at exit code 0 — the
first cleanup step of `system_cleanup_and_exit` is removing the PID file
(releasing the ProcessSingleton), not stopping the ConfigWatcher, so the
PID file is unlinked first rather than last. -/
theorem cleanup_pid_file_first_not_last :
    (system_cleanup_and_exit (fun _ => false) (defaultConfig sampleAssets) 0).head? =
      some CleanupStep.remove_pid_file ∧
    (system_cleanup_and_exit (fun _ => false) (defaultConfig sampleAssets) 0).head? ≠
      some CleanupStep.config_watcher_cleanup ∧
    (system_cleanup_and_exit (fun _ => false) (defaultConfig sampleAssets) 0).getLast? ≠
      some CleanupStep.remove_pid_file := by
  decide

/-- C7 amended: shutdown executes its cleanup steps in the fixed order of
the source — remove the PID file (release the ProcessSingleton) first,
then stop the ConfigWatcher, the animator, the renderer and the input
monitor, then release configuration resources; no step's execution
depends on any step failing or succeeding (the `fails` oracle is never
consulted), and the process always reaches `exit` with the given code as
the final step. -/
theorem cleanup_order_failures_and_exit (fails : CleanupStep → Bool) (live : Config)
    (code : Int) :
    (system_cleanup_and_exit fails live code).take 6 =
      [CleanupStep.remove_pid_file, CleanupStep.config_watcher_cleanup,
       CleanupStep.animation_cleanup, CleanupStep.wayland_cleanup,
       CleanupStep.input_cleanup, CleanupStep.config_cleanup] ∧
    (system_cleanup_and_exit fails live code).getLast? =
      some (CleanupStep.exit_process code) ∧
    system_cleanup_and_exit fails live code =
      system_cleanup_and_exit (fun _ => false) live code := by
  refine ⟨?_, ?_, rfl⟩ <;>
    · dsimp only [system_cleanup_and_exit]
      split_ifs <;> simp [List.getLast?]

/-- Propositional reading of `config_devices_changed ... = false`: the
device counts agree and every device path of the new config occurs in the
old config's list. -/
theorem config_devices_changed_eq_false_iff (a b : Config) :
    config_devices_changed a b = false ↔
      (a.num_keyboard_devices = b.num_keyboard_devices ∧
       ∀ d ∈ b.keyboard_devices, d ∈ a.keyboard_devices) := by
  rcases eq_or_ne a.num_keyboard_devices b.num_keyboard_devices with h | h
  · simp [config_devices_changed, h, List.any_eq_false]
  · simp [config_devices_changed, h]

/-- Propositional reading of the spec-side set comparison. -/
theorem spec_device_set_equal_iff (a b : List (List Char)) :
    spec_device_set_equal a b = true ↔
      ((∀ d ∈ a, d ∈ b) ∧ ∀ d ∈ b, d ∈ a) := by
  simp [spec_device_set_equal, List.all_eq_true, List.any_eq_true]

/-- C8 counterexample: the restart condition is not an order-insensitive
set comparison by path. With the live device list `[/dev/input/event3,
/dev/input/event7]` and a successfully loaded candidate whose list is
`[/dev/input/event3, /dev/input/event3]`, the two lists are different as
sets, yet `config_devices_changed` reports no change and the reload makes
no input-monitor restart call. -/
theorem reload_restart_not_set_comparison :
    spec_device_set_equal
        ({ defaultConfig sampleAssets with
            keyboard_devices := ["/dev/input/event3".data, "/dev/input/event7".data],
            num_keyboard_devices := 2 } : Config).keyboard_devices
        ({ defaultConfig sampleAssets with
            keyboard_devices := ["/dev/input/event3".data, "/dev/input/event3".data],
            num_keyboard_devices := 2 } : Config).keyboard_devices = false ∧
    config_devices_changed
        { defaultConfig sampleAssets with
            keyboard_devices := ["/dev/input/event3".data, "/dev/input/event7".data],
            num_keyboard_devices := 2 }
        { defaultConfig sampleAssets with
            keyboard_devices := ["/dev/input/event3".data, "/dev/input/event3".data],
            num_keyboard_devices := 2 } = false ∧
    (config_reload_apply
        { defaultConfig sampleAssets with
            keyboard_devices := ["/dev/input/event3".data, "/dev/input/event7".data],
            num_keyboard_devices := 2 }
        { defaultConfig sampleAssets with
            keyboard_devices := ["/dev/input/event3".data, "/dev/input/event3".data],
            num_keyboard_devices := 2 }).2 = [SubsystemAction.wayland_update_config] := by
  decide

/-- C8 amended: on a successful reload the candidate becomes the live
snapshot and `wayland_update_config` (reconfiguring renderer and
animator) is called exactly once, unconditionally; the input monitor is
restarted — by exactly one call carrying the new, fully-formed device
list, count and debug flag — precisely when `config_devices_changed`
holds, i.e. when the counts differ or some new path is absent from the
old list; a reload whose device list and count are unchanged (for
example one changing only `fps`) triggers no restart; and on
duplicate-free device lists with consistent counts the code's condition
agrees exactly with the spec's order-insensitive set comparison. -/
theorem reload_restart_precision (live temp : Config) :
    (config_reload_apply live temp).1 = temp ∧
    (config_reload_apply live temp).2.count SubsystemAction.wayland_update_config = 1 ∧
    (temp.keyboard_devices = live.keyboard_devices ∧
        temp.num_keyboard_devices = live.num_keyboard_devices →
      (config_reload_apply live temp).2 = [SubsystemAction.wayland_update_config]) ∧
    (config_devices_changed live temp = true →
      (config_reload_apply live temp).2 =
        [SubsystemAction.wayland_update_config,
         SubsystemAction.input_restart_monitoring temp.keyboard_devices
           temp.num_keyboard_devices temp.enable_debug]) ∧
    (config_devices_changed live temp = false →
      (config_reload_apply live temp).2 = [SubsystemAction.wayland_update_config]) ∧
    (live.keyboard_devices.Nodup → temp.keyboard_devices.Nodup →
     live.num_keyboard_devices = (live.keyboard_devices.length : Int) →
     temp.num_keyboard_devices = (temp.keyboard_devices.length : Int) →
     (config_devices_changed live temp = false ↔
       spec_device_set_equal live.keyboard_devices temp.keyboard_devices = true)) := by
  have hchanged := config_devices_changed_eq_false_iff live temp
  refine ⟨rfl, ?_, ?_, ?_, ?_, ?_⟩
  · dsimp only [config_reload_apply]
    split_ifs <;> rfl
  · rintro ⟨hdev, hnum⟩
    have hfalse : config_devices_changed live temp = false := by
      rw [hchanged]
      exact ⟨hnum.symm, by rw [hdev]; exact fun d hd => hd⟩
    dsimp only [config_reload_apply]
    rw [if_neg (by simp [hfalse])]
  · intro htrue
    dsimp only [config_reload_apply]
    rw [if_pos htrue]
  · intro hfalse
    dsimp only [config_reload_apply]
    rw [if_neg (by simp [hfalse])]
  · intro hnl hnt hll hlt
    rw [hchanged, spec_device_set_equal_iff]
    constructor
    · rintro ⟨hnum, hsub⟩
      refine ⟨?_, hsub⟩
      have hsubF : temp.keyboard_devices.toFinset ⊆ live.keyboard_devices.toFinset := by
        intro x hx
        rw [List.mem_toFinset] at hx ⊢
        exact hsub x hx
      have hcardt := List.toFinset_card_of_nodup hnt
      have hcardl := List.toFinset_card_of_nodup hnl
      have hEq : temp.keyboard_devices.toFinset = live.keyboard_devices.toFinset :=
        Finset.eq_of_subset_of_card_le hsubF (by omega)
      intro d hd
      rw [← List.mem_toFinset, hEq, List.mem_toFinset]
      exact hd
    · rintro ⟨hsubl, hsubt⟩
      refine ⟨?_, hsubt⟩
      have hEq : live.keyboard_devices.toFinset = temp.keyboard_devices.toFinset := by
        apply Finset.Subset.antisymm <;> intro x hx <;>
          rw [List.mem_toFinset] at hx ⊢
        · exact hsubl x hx
        · exact hsubt x hx
      have hcardt := List.toFinset_card_of_nodup hnt
      have hcardl := List.toFinset_card_of_nodup hnl
      have : live.keyboard_devices.toFinset.card = temp.keyboard_devices.toFinset.card := by
        rw [hEq]
      omega

/-- C8 witness: a reload that keeps the device list identical (for
example one that only changes `fps`) makes no restart call — only the
unconditional `wayland_update_config`. -/
theorem reload_restart_precision_witness :
    (config_reload_apply (defaultConfig sampleAssets)
        { defaultConfig sampleAssets with fps := 30 }).2 =
      [SubsystemAction.wayland_update_config] :=
  (reload_restart_precision (defaultConfig sampleAssets)
      { defaultConfig sampleAssets with fps := 30 }).2.2.1 ⟨rfl, rfl⟩

/-- C9: configuration parsing never fails on recoverable input — a
missing file yields success with an informational note and the config
untouched (so the caller's defaults survive); any file content parses
with success as long as allocation succeeds; a file containing `foo=bar`
followed by `cat_height=55` yields `cat_height = 55` with exactly one
warning, the unknown-key warning for `foo` carrying line number 1; and a
malformed line is warned about with its line number while parsing
continues past it. -/
theorem parse_never_fails_on_recoverable_input (K : AssetConsts) :
    (∀ (g : List (List Char)) (c : Config),
      parse_config_file K g c true none =
        { gdevs := g, cfg := c, logs := [LogEntry.infoConfigNotFound],
          err := BongocatError.SUCCESS }) ∧
    (∀ (g : List (List Char)) (c : Config) (lines : List (List Char)),
      (parse_config_file K g c true (some lines)).err = BongocatError.SUCCESS) ∧
    ((parse_config_file sampleAssets [] (defaultConfig sampleAssets) true
        (some ["foo=bar".data, "cat_height=55".data])).cfg.cat_height = 55 ∧
     (parse_config_file sampleAssets [] (defaultConfig sampleAssets) true
        (some ["foo=bar".data, "cat_height=55".data])).logs =
       [LogEntry.warnUnknownKey "foo".data 1, LogEntry.infoLoadedConfig] ∧
     countWarnings (parse_config_file sampleAssets [] (defaultConfig sampleAssets) true
        (some ["foo=bar".data, "cat_height=55".data])).logs = 1) ∧
    ((parse_config_file sampleAssets [] (defaultConfig sampleAssets) true
        (some ["notakeyvalue".data, "cat_height=55".data])).cfg.cat_height = 55 ∧
     (parse_config_file sampleAssets [] (defaultConfig sampleAssets) true
        (some ["notakeyvalue".data, "cat_height=55".data])).logs =
       [LogEntry.warnInvalidLine 1, LogEntry.infoLoadedConfig]) := by
  refine ⟨fun g c => rfl, fun g c lines => ?_, by decide, by decide⟩
  have h := parseLines_err_alloc_true K lines
    { gdevs := g, cfg := c, logs := [], err := BongocatError.SUCCESS } 0
  dsimp only [parse_config_file]
  split_ifs with h2
  · exact h
  · exact absurd h h2

/-- C10: after every `load_config` call that returns success, the
snapshot's `bar_height` equals its `overlay_height` — the value is
unconditionally overwritten from the validated overlay height after
validation — so it lies within [20, 300] and any default or
platform-detected `bar_height` is discarded. -/
theorem load_config_couples_bar_height (K : AssetConsts) (gdevs : List (List Char))
    (alloc : Bool) (file : Option (List (List Char)))
    (h : (load_config K gdevs alloc file).err = BongocatError.SUCCESS) :
    (load_config K gdevs alloc file).cfg.bar_height =
      (load_config K gdevs alloc file).cfg.overlay_height ∧
    20 ≤ (load_config K gdevs alloc file).cfg.bar_height ∧
    (load_config K gdevs alloc file).cfg.bar_height ≤ 300 := by
  dsimp only [load_config] at h ⊢
  split_ifs at h ⊢ with h1 h2 h3
  · exact absurd h h2
  · exact ⟨rfl, (validate_overlay_height_bounds K _).1, (validate_overlay_height_bounds K _).2⟩
  · exact absurd h h3
  · exact ⟨rfl, (validate_overlay_height_bounds K _).1, (validate_overlay_height_bounds K _).2⟩

/-- C10 witness: loading with a missing file succeeds and yields a
snapshot whose `bar_height` equals its `overlay_height` and lies in
[20, 300] (here both are 50, discarding the platform default 40). -/
theorem load_config_couples_bar_height_witness :
    (load_config sampleAssets [] true none).err = BongocatError.SUCCESS ∧
    ((load_config sampleAssets [] true none).cfg.bar_height =
      (load_config sampleAssets [] true none).cfg.overlay_height ∧
     20 ≤ (load_config sampleAssets [] true none).cfg.bar_height ∧
     (load_config sampleAssets [] true none).cfg.bar_height ≤ 300) :=
  ⟨by decide, load_config_couples_bar_height sampleAssets [] true none (by decide)⟩
